import Mathlib

/-!
Verification development for the scroll-and-extract orchestration engine of the
LeadGenCopilot repository (class GoogleMapsBusinessScraper and its HTTP
adapter).  The JavaScript source is shallowly embedded: every browser
interaction (page navigation, DOM query, scroll, detail-page load) is a value
supplied by an environment record, and the control flow, counters and
accumulators of the source are reproduced exactly.  The authoritative source
file is src/unnamed/part_003 (the endpoint handler is src/unnamed/part_004);
the variants in src/backend/server.js and src/unnamed/part_005 share the same
loop structure.  Wall-clock timestamps (startTime, endTime, extractedAt) are
abstracted to a Nat clock supplied by the environment; they carry no logic.
-/

namespace LeadGen

/-! ## String helpers

The JavaScript string operations used by the extractor (trim, includes,
replace-first-occurrence) are modelled over character lists so that they
evaluate by kernel reduction.  Lean's built-in String.trim and String.replace
use Substring positions that do not reduce, so we give structurally recursive
equivalents of the JS semantics.
-/

/-- Whether the character list s starts with the character list p. -/
def startsWithChars : List Char → List Char → Bool
  | _, [] => true
  | [], _ :: _ => false
  | c :: cs, p :: ps => c == p && startsWithChars cs ps

/-- Split a character list at the first occurrence of the pattern pat:
returns the characters before the match and the characters after it, or
none when the pattern does not occur. -/
def splitFirstChars (pat : List Char) : List Char → Option (List Char × List Char)
  | [] => if startsWithChars [] pat then some ([], []) else none
  | c :: cs =>
    if startsWithChars (c :: cs) pat then some ([], (c :: cs).drop pat.length)
    else (splitFirstChars pat cs).map (fun q => (c :: q.1, q.2))

/-- JS String.prototype.includes: does s contain pat as a substring? -/
def strContains (s pat : String) : Bool :=
  (splitFirstChars pat.data s.data).isSome

/-- JS String.prototype.replace with a string pattern: replace the FIRST
occurrence of pat in s by repl (the source uses it to strip the literal
aria-label marker from phone numbers). -/
def replaceFirstStr (s pat repl : String) : String :=
  match splitFirstChars pat.data s.data with
  | some q => String.mk (q.1 ++ repl.data ++ q.2)
  | none => s

/-- JS String.prototype.trim on a character list. -/
def trimChars (l : List Char) : List Char :=
  ((l.dropWhile Char.isWhitespace).reverse.dropWhile Char.isWhitespace).reverse

/-- JS String.prototype.trim. -/
def strTrim (s : String) : String := String.mk (trimChars s.data)

/-! ## Data model -/

/-- The sentinel value used by the extractor for a field whose lookup
matched nothing (the literal string used throughout the source). -/
def notFound : String := "Not Found"

/-- The record built by extractBusinessData for one detail page.  The field
names are those of the object literal in the source; the spec calls
resultIndex the resultOrdinal.  The coordinates hold the matched latitude
and longitude of the @lat,lng pattern (numeric values abstracted to a pair
of integers; no claim depends on their arithmetic). -/
structure BusinessRecord where
  name : String
  category : String
  website : String
  phone : String
  address : String
  rating : String
  reviewCount : String
  hours : String
  priceLevel : String
  coordinates : Option (Int × Int)
  searchQuery : String
  resultIndex : Nat
  googleMapsUrl : String
  extractedAt : Nat
  deriving Repr, DecidableEq

/-- The this.stats accumulator of the scraper instance (startTime and
endTime, pure wall-clock values, are not modelled). -/
structure Stats where
  total : Nat
  processed : Nat
  successful : Nat
  failed : Nat
  scrollAttempts : Nat
  mode : String
  deriving Repr, DecidableEq

/-- The this.options record after the constructor has merged defaults
(fields that only feed timing delays or logging are kept for completeness;
outputFormat and headless carry no control flow used by the claims). -/
structure ScraperOptions where
  maxConcurrency : Nat
  useParallel : Bool
  headless : Bool
  maxResults : Nat
  delay : Nat
  verbose : Bool
  retryLimit : Nat
  timeout : Nat
  maxScrollAttempts : Nat
  scrollDelay : Nat
  proMode : Bool
  deriving Repr, DecidableEq

/-- The constructor defaults of GoogleMapsBusinessScraper. -/
def defaultOptions : ScraperOptions :=
  { maxConcurrency := 2
    useParallel := false
    headless := true
    maxResults := 50
    delay := 3000
    verbose := false
    retryLimit := 2
    timeout := 45000
    maxScrollAttempts := 10
    scrollDelay := 2500
    proMode := false }

/-- The stats object as initialised by the constructor. -/
def initStats : Stats :=
  { total := 0, processed := 0, successful := 0, failed := 0
    scrollAttempts := 0, mode := "sequential" }

/-- The mutable instance state of one GoogleMapsBusinessScraper: its options,
its this.results accumulator and its this.stats accumulator. -/
structure ScraperState where
  options : ScraperOptions
  results : List BusinessRecord
  stats : Stats
  deriving Repr, DecidableEq

/-- Models new GoogleMapsBusinessScraper(options): empty results list and
freshly initialised stats. -/
def mkScraper (opts : ScraperOptions) : ScraperState :=
  { options := opts, results := [], stats := initStats }

/-! ## Field Extractor -/

/-- The DOM state of one loaded detail page, as seen by the page.evaluate
of extractBusinessData: for each selector, the text/attribute the lookup
would return (none when querySelector matches no element).  phoneAriaLabel
is doubly optional: the button may be absent, or present without an
aria-label.  coordsMatch is the result of the @lat,lng pattern match on
window.location.href (none when the pattern does not match). -/
structure DetailPage where
  businessNameText : Option String
  categoryText : Option String
  websiteHref : Option String
  phoneAriaLabel : Option (Option String)
  addressText : Option String
  ratingText : Option String
  reviewCountText : Option String
  hoursText : Option String
  priceLevelText : Option String
  coordsMatch : Option (Int × Int)
  pageUrl : String
  deriving Repr, DecidableEq

/-- The getText helper of extractBusinessData: trimmed text content, or the
sentinel when the selector matches nothing. -/
def getText (el : Option String) : String :=
  match el with
  | some t => strTrim t
  | none => notFound

/-- The getHref helper of extractBusinessData. -/
def getHref (el : Option String) : String :=
  match el with
  | some h => h
  | none => notFound

/-- The getPhoneFromAria helper: strip the fixed aria-label marker from the
phone button, with the sentinel when the button or its label is absent. -/
def getPhoneFromAria (el : Option (Option String)) : String :=
  match el with
  | some (some ariaLabel) => strTrim (replaceFirstStr ariaLabel "Phone: " "")
  | some none => notFound
  | none => notFound

/-- extractBusinessData(page, query, resultIndex): each field is pulled by
an isolated lookup, so one missing field never aborts the others. -/
def extractBusinessData (p : DetailPage) (query : String) (resultIndex : Nat)
    (now : Nat) : BusinessRecord :=
  { name := getText p.businessNameText
    category := getText p.categoryText
    website := getHref p.websiteHref
    phone := getPhoneFromAria p.phoneAriaLabel
    address := getText p.addressText
    rating := getText p.ratingText
    reviewCount := getText p.reviewCountText
    hours := getText p.hoursText
    priceLevel := getText p.priceLevelText
    coordinates := p.coordsMatch
    searchQuery := query
    resultIndex := resultIndex
    googleMapsUrl := p.pageUrl
    extractedAt := now }

/-! ## Feed Scroller: handleInfiniteScroll -/

/-- What one iteration of the while loop of handleInfiniteScroll observes
on the page.  The try block has four awaits that can throw, and the catch
runs from whatever state the iteration had mutated so far, so each throw
point is a distinct observation:
raise - the initial result-count read or performDoubleScroll itself threw,
before any loop variable changed;
scrollFail - the count was read, then performDoubleScroll reported failure
(no feed container) without throwing;
raiseAfterScroll - the double scroll succeeded (so consecutiveFailures was
already reset to 0), then the post-delay re-count threw;
raiseAtBottomCheck - the whole cycle succeeded through the scrollAttempts
increment and the stats write, then the at-bottom page.evaluate threw, so
the catch increments scrollAttempts a second time in the same iteration;
cycle - the iteration completed: count, successful double scroll, re-count
and at-bottom flag. -/
inductive ScrollObs where
  | raise
  | scrollFail (currentResults : Nat)
  | raiseAfterScroll (currentResults : Nat)
  | raiseAtBottomCheck (currentResults newResultCount : Nat)
  | cycle (currentResults newResultCount : Nat) (isAtBottom : Bool)
  deriving Repr

/-- The while loop of handleInfiniteScroll.  k indexes the observation
stream, scrollAttempts and consecutiveFailures are the loop variables, and
recorded is the current value of this.stats.scrollAttempts (it is assigned
only after a successful scroll cycle reaches the increment, exactly as in
the source, where the catch path and the failure path skip the
assignment).  Returns the final (scrollAttempts, recorded) pair.  On
raiseAfterScroll the catch sees the failure counter already reset, so it
continues with consecutiveFailures = 1; on raiseAtBottomCheck the catch
runs after scrollAttempts++ and the stats write, so the iteration adds two
attempts (possibly ending at maxScrollAttempts + 1) while recording only
the first.  Termination is by the lexicographic measure (attempts left,
failures left); the consecutiveFailures guard makes the continue path
decrease the second component. -/
def scrollLoop (maxScrollAttempts maxConsecutiveFailures maxResults : Nat)
    (obs : Nat → ScrollObs) (k scrollAttempts consecutiveFailures recorded : Nat) :
    Nat × Nat :=
  if _h : scrollAttempts < maxScrollAttempts then
    match obs k with
    | .raise =>
      scrollLoop maxScrollAttempts maxConsecutiveFailures maxResults obs
        (k + 1) (scrollAttempts + 1) (consecutiveFailures + 1) recorded
    | .scrollFail currentResults =>
      if maxResults ≤ currentResults then (scrollAttempts, recorded)
      else if _h2 : maxConsecutiveFailures ≤ consecutiveFailures + 1 then
        (scrollAttempts, recorded)
      else
        scrollLoop maxScrollAttempts maxConsecutiveFailures maxResults obs
          (k + 1) scrollAttempts (consecutiveFailures + 1) recorded
    | .raiseAfterScroll currentResults =>
      if maxResults ≤ currentResults then (scrollAttempts, recorded)
      else
        scrollLoop maxScrollAttempts maxConsecutiveFailures maxResults obs
          (k + 1) (scrollAttempts + 1) 1 recorded
    | .raiseAtBottomCheck currentResults _newResultCount =>
      if maxResults ≤ currentResults then (scrollAttempts, recorded)
      else
        scrollLoop maxScrollAttempts maxConsecutiveFailures maxResults obs
          (k + 1) (scrollAttempts + 2) 1 (scrollAttempts + 1)
    | .cycle currentResults newResultCount isAtBottom =>
      if maxResults ≤ currentResults then (scrollAttempts, recorded)
      else if isAtBottom && (newResultCount == currentResults) then
        (scrollAttempts + 1, scrollAttempts + 1)
      else
        scrollLoop maxScrollAttempts maxConsecutiveFailures maxResults obs
          (k + 1) (scrollAttempts + 1) 0 (scrollAttempts + 1)
  else (scrollAttempts, recorded)
termination_by (maxScrollAttempts - scrollAttempts, maxConsecutiveFailures - consecutiveFailures)
decreasing_by
  · exact Prod.Lex.left _ _ (by omega)
  · exact Prod.Lex.right _ (by omega)
  · exact Prod.Lex.left _ _ (by omega)
  · exact Prod.Lex.left _ _ (by omega)
  · exact Prod.Lex.left _ _ (by omega)

/-- The object returned by handleInfiniteScroll. -/
structure ScrollOutcome where
  totalResults : Nat
  scrollAttempts : Nat
  success : Bool
  deriving Repr, DecidableEq

/-- The maxConsecutiveFailures constant of handleInfiniteScroll in
part_003: 3 in proMode, 2 otherwise.  (The server.js Playwright variant
hard-codes 3.) -/
def maxConsecutiveFailuresFor (proMode : Bool) : Nat :=
  if proMode then 3 else 2

/-- handleInfiniteScroll(page, maxResults): drives the scroll loop on the
observation stream, then measures the final count; success is a non-zero
final count.  The second component is the updated this.stats (only
scrollAttempts is written, and only on successful-scroll cycles). -/
def handleInfiniteScroll (opts : ScraperOptions) (maxResults : Nat)
    (obs : Nat → ScrollObs) (finalCount : Nat) (stats : Stats) :
    ScrollOutcome × Stats :=
  let r := scrollLoop opts.maxScrollAttempts (maxConsecutiveFailuresFor opts.proMode)
    maxResults obs 0 0 0 stats.scrollAttempts
  ({ totalResults := finalCount, scrollAttempts := r.1, success := decide (0 < finalCount) },
   { stats with scrollAttempts := r.2 })

/-! ## Dispatch environments -/

/-- The outcome of processing one discovered URL on a detail page: err when
the navigation or the selector wait threw (the per-item catch), page when
the detail page loaded and the extractor ran on its DOM state. -/
inductive ItemOutcome where
  | err
  | page (p : DetailPage)
  deriving Repr

/-- Whether the item completed the try block (reached the extractor)
without throwing. -/
def ItemOutcome.isPage : ItemOutcome → Bool
  | .err => false
  | .page _ => true

/-- The value the per-item dispatch keeps for one item: the extracted record
when its name is not the sentinel, nothing otherwise (err yields nothing).
This is the shared success condition of both dispatch disciplines. -/
def itemValue (query : String) (now : Nat) (o : ItemOutcome) (resultIndex : Nat) :
    Option BusinessRecord :=
  match o with
  | .err => none
  | .page p =>
    let result := extractBusinessData p query resultIndex now
    if result.name ≠ notFound then some result else none

/-- The outcome of one whole run, as seen at the scrapeBusinesses boundary:
either the returned record list, or the thrown error message.  Both carry
the instance state, because this.stats and this.results are fields of the
scraper object and survive a throw. -/
abbrev RunResult : Type :=
  Except (String × ScraperState) (List BusinessRecord × ScraperState)

/-- The instance state after the run, on either exit path. -/
def outState : RunResult → ScraperState
  | .ok r => r.2
  | .error e => e.2

/-- The returned record list, when the run completed normally. -/
def okResults : RunResult → Option (List BusinessRecord)
  | .ok r => some r.1
  | .error _ => none

/-! ## Sequential dispatch: scrapeSequential -/

/-- Everything the page supplies to one scrapeSequential run: whether the
launch/navigation/initial wait succeeded, the scroll observation stream,
the item count measured when the scroll loop exits, the count re-measured
on the scroll-failure fallback path, the resultLinks hrefs in DOM order,
the per-index detail-page outcomes, and the clock. -/
structure SeqEnv where
  navOk : Bool
  scrollObs : Nat → ScrollObs
  finalCount : Nat
  recheckCount : Nat
  links : List String
  item : Nat → ItemOutcome
  now : Nat

/-- The businessUrls array of scrapeSequential: every resultLinks href with
its 1-based index, in DOM order (no filtering, no deduplication). -/
def discoverUrlsSequential (links : List String) : List (String × Nat) :=
  links.enum.map (fun e => (e.2, e.1 + 1))

/-- The body of the per-business for loop of scrapeSequential at index i.
On a throw (err) the catch increments failed and continues, which skips the
processed increment at the end of the loop body; on a loaded page the
extractor runs, a record with a real name is pushed onto this.results and
counts successful, a sentinel name counts failed, and processed is
incremented either way. -/
def processItem (query : String) (now : Nat) (st : ScraperState) (i : Nat)
    (o : ItemOutcome) : ScraperState :=
  match o with
  | .err =>
    { st with stats := { st.stats with failed := st.stats.failed + 1 } }
  | .page p =>
    let businessDetails := extractBusinessData p query (i + 1) now
    let st1 :=
      if businessDetails.name ≠ notFound then
        { st with results := st.results ++ [businessDetails],
                  stats := { st.stats with successful := st.stats.successful + 1 } }
      else
        { st with stats := { st.stats with failed := st.stats.failed + 1 } }
    { st1 with stats := { st1.stats with processed := st1.stats.processed + 1 } }

/-- The dispatch fold of scrapeSequential over the processed indices. -/
def seqFold (query : String) (now : Nat) (item : Nat → ItemOutcome)
    (st : ScraperState) (idxs : List Nat) : ScraperState :=
  idxs.foldl (fun s i => processItem query now s i (item i)) st

/-- scrapeSequential(query, maxResults): set the mode, launch and navigate
(fatal on failure), run the scroll loop, abort fatally when the scroll
reported failure and the re-measured count is zero, snapshot the URLs,
process min(maxResults, urls) of them one at a time, and return
this.results. -/
def scrapeSequential (st0 : ScraperState) (query : String) (maxResults : Nat)
    (env : SeqEnv) : RunResult :=
  let st := { st0 with stats := { st0.stats with mode := "sequential" } }
  if env.navOk then
    let hs := handleInfiniteScroll st.options maxResults env.scrollObs env.finalCount st.stats
    let st := { st with stats := hs.2 }
    if !hs.1.success && env.recheckCount == 0 then
      .error ("Failed to load any results during scrolling", st)
    else
      let businessUrls := discoverUrlsSequential env.links
      let resultsToProcess := min maxResults businessUrls.length
      let st := seqFold query env.now env.item st (List.range resultsToProcess)
      .ok (st.results, st)
  else .error ("navigation failed", st)

/-! ## Concurrent dispatch: scrapeParallel -/

/-- The page environment of getBusinessUrlsSequential (the URL-collection
pass the parallel scraper runs first on its own browser). -/
structure UrlsEnv where
  navOk : Bool
  scrollObs : Nat → ScrollObs
  finalCount : Nat
  links : List String

/-- The URL snapshot of getBusinessUrlsSequential: resultLinks hrefs that
contain the detail-view marker, truncated to maxResults (no
deduplication). -/
def discoverUrlsParallel (links : List String) (maxResults : Nat) : List String :=
  (links.filter (fun href => strContains href "/place/")).take maxResults

/-- getBusinessUrlsSequential(query, maxResults): navigate, scroll, abort
fatally when zero results materialised, and return the URL snapshot.  The
scroll loop writes this.stats.scrollAttempts of the same instance. -/
def getBusinessUrlsSequential (st : ScraperState) (maxResults : Nat)
    (env : UrlsEnv) : Except (String × ScraperState) (List String × ScraperState) :=
  if env.navOk then
    let hs := handleInfiniteScroll st.options maxResults env.scrollObs env.finalCount st.stats
    let st := { st with stats := hs.2 }
    if !hs.1.success && hs.1.totalResults == 0 then
      .error ("Failed to load any results during scrolling", st)
    else
      .ok (discoverUrlsParallel env.links maxResults, st)
  else .error ("navigation failed", st)

/-- One joint await of a batch of worker tasks: order lists the batch-local
indices in the order the workers finished (a permutation of 0..b-1 for any
real execution; indices outside the batch are discarded for totality), and
each finished worker contributes its (index, value) pair. -/
def joinAll {α : Type} (order : List Nat) (b : Nat) (task : Nat → α) :
    List (Nat × α) :=
  (order.filter (fun i => decide (i < b))).map (fun i => (i, task i))

/-- Promise.all reads the settled values back in slot order (by batch-local
index), not in completion order. -/
def slotRead {α : Type} (b : Nat) (events : List (Nat × α)) : List (Option α) :=
  (List.range b).map (fun i => events.lookup i)

/-- The stats mutation performed inside one batch promise as its worker
settles: a throw increments failed; a record with a real name increments
successful; a sentinel-name record increments nothing. -/
def parallelItemStats (query : String) (now : Nat) (o : ItemOutcome)
    (resultIndex : Nat) (stats : Stats) : Stats :=
  match o with
  | .err => { stats with failed := stats.failed + 1 }
  | .page p =>
    let result := extractBusinessData p query resultIndex now
    if result.name ≠ notFound then
      { stats with successful := stats.successful + 1 }
    else stats

/-- The batching for loop of scrapeParallel: slice the next batchSize URLs,
dispatch them jointly (each worker yields its item value; a worker failure
is caught at the per-item boundary and never cancels its siblings), apply
the per-worker stats mutations in completion order, collect the non-null
settled values in slot order, add batch.length to processed, and continue
with the next slice.  i is the running URL offset (the resultIndex of a
batch member is i + batchIndex + 1) and bno numbers the batches.  A zero
batchSize would never advance in the source (the loop increments i by
batchSize); it cannot occur, since every construction site passes
maxConcurrency at least 1, and the model returns immediately. -/
def dispatchBatches (query : String) (now : Nat) (item : Nat → ItemOutcome)
    (schedule : Nat → List Nat) (batchSize : Nat) :
    List String → Nat → Nat → List BusinessRecord → Stats →
    List BusinessRecord × Stats
  | [], _i, _bno, results, stats => (results, stats)
  | u :: rest, i, bno, results, stats =>
    if _hb : batchSize = 0 then (results, stats)
    else
      let b := ((u :: rest).take batchSize).length
      let task := fun bIdx => itemValue query now (item (i + bIdx)) (i + bIdx + 1)
      let batchResults := slotRead b (joinAll (schedule bno) b task)
      let stats1 := ((schedule bno).filter (fun j => decide (j < b))).foldl
        (fun s bIdx => parallelItemStats query now (item (i + bIdx)) (i + bIdx + 1) s) stats
      let results1 := results ++ batchResults.filterMap (fun slot => slot.bind id)
      let stats2 := { stats1 with processed := stats1.processed + b }
      dispatchBatches query now item schedule batchSize
        ((u :: rest).drop batchSize) (i + batchSize) (bno + 1) results1 stats2
termination_by urls => urls.length
decreasing_by
  simp [List.length_drop]
  omega

/-- Everything one scrapeParallel run consumes: whether Cluster.launch
succeeded, the URL-collection page environment, the per-URL detail-page
outcomes (indexed by discovery position), the per-batch completion orders,
and the clock. -/
structure ParEnv where
  clusterLaunchOk : Bool
  urlsEnv : UrlsEnv
  item : Nat → ItemOutcome
  schedule : Nat → List Nat
  now : Nat

/-- scrapeParallel(query, maxResults): set the pro mode marker, launch the
worker cluster (fatal on failure), collect the URL snapshot, abort when it
is empty, dispatch the URLs in batches of maxConcurrency, store the
collected list into this.results and return it. -/
def scrapeParallel (st0 : ScraperState) (query : String) (maxResults : Nat)
    (env : ParEnv) : RunResult :=
  let st := { st0 with stats := { st0.stats with mode := "parallel-pro" } }
  if env.clusterLaunchOk then
    match getBusinessUrlsSequential st maxResults env.urlsEnv with
    | .error e => .error e
    | .ok (businessUrls, st1) =>
      if businessUrls.length = 0 then .error ("No business URLs found", st1)
      else
        let d := dispatchBatches query env.now env.item env.schedule
          st1.options.maxConcurrency businessUrls 0 0 [] st1.stats
        .ok (d.1, { st1 with results := d.1, stats := d.2 })
  else .error ("cluster launch failed", st)

/-! ## Orchestrator entry point: scrapeBusinesses -/

/-- scrapeBusinesses(query, maxResults): record the requested total, run the
parallel discipline when proMode and useParallel are both set, and on ANY
error thrown by it reset both option flags on the instance and re-run the
whole job sequentially; otherwise run sequentially directly. -/
def scrapeBusinesses (st0 : ScraperState) (query : String) (maxResults : Nat)
    (penv : ParEnv) (senv : SeqEnv) : RunResult :=
  let st := { st0 with stats := { st0.stats with total := maxResults } }
  if st.options.proMode && st.options.useParallel then
    match scrapeParallel st query maxResults penv with
    | .ok r => .ok r
    | .error e =>
      let st2 := { e.2 with options :=
        { e.2.options with proMode := false, useParallel := false } }
      scrapeSequential st2 query maxResults senv
  else
    scrapeSequential st query maxResults senv

/-! ## HTTP adapter: POST /api/scrape-gmaps (part_004) -/

/-- The request body fields the handler destructures.  query is none when
the field is absent or not a string; maxResults is none when absent (the
destructuring default 15 then applies). -/
structure ScrapeRequest where
  query : Option String
  maxResults : Option Int
  proMode : Bool

/-- The outcome of the validation block of the handler. -/
inductive Validation where
  | rejected (error : String)
  | accepted (query : String) (maxResults : Int)
  deriving Repr, DecidableEq

/-- The validation block: reject a missing/non-string/falsy/blank query,
then reject maxResults above 500; everything else proceeds.  There is no
lower bound and a missing maxResults defaults to 15. -/
def validateScrapeRequest (req : ScrapeRequest) : Validation :=
  match req.query with
  | none => .rejected "Query is required and must be a non-empty string"
  | some q =>
    if (strTrim q).length = 0 then
      .rejected "Query is required and must be a non-empty string"
    else
      let maxResults := req.maxResults.getD 15
      if 500 < maxResults then .rejected "Maximum results cannot exceed 500"
      else .accepted q maxResults

/-- The options the handler passes to new GoogleMapsBusinessScraper.  A
negative parsed maxResults makes every count comparison against it fail in
the source exactly as 0 does, so Int.toNat is faithful. -/
def serverOptions (proMode : Bool) (maxResults : Int) : ScraperOptions :=
  { maxConcurrency := if proMode then 6 else 1
    useParallel := proMode
    headless := true
    maxResults := maxResults.toNat
    delay := if proMode then 1500 else 3000
    verbose := true
    retryLimit := if proMode then 3 else 2
    timeout := 45000
    maxScrollAttempts := if proMode then 15 else 10
    scrollDelay := if proMode then 1500 else 2500
    proMode := proMode }

/-- The three response shapes of the endpoint. -/
inductive EndpointResponse where
  | badRequest (error : String)
  | serverError (error : String)
  | okPayload (totalResults : Nat) (mode : String)
  deriving Repr, DecidableEq

/-- The whole request handler: validate (rejections answer 400 before any
scraper exists), otherwise construct a fresh scraper and run it; the Bool
records whether a scraper instance was constructed (resource allocation
began). -/
def scrapeEndpoint (req : ScrapeRequest) (penv : ParEnv) (senv : SeqEnv) :
    EndpointResponse × Bool :=
  match validateScrapeRequest req with
  | .rejected e => (.badRequest e, false)
  | .accepted q maxResults =>
    match scrapeBusinesses (mkScraper (serverOptions req.proMode maxResults))
        q maxResults.toNat penv senv with
    | .ok r => (.okPayload r.1.length (if req.proMode then "pro" else "standard"), true)
    | .error e => (.serverError e.1, true)

/-! ## Structural lemmas about the sequential dispatch fold -/

theorem processItem_options (query : String) (now : Nat) (st : ScraperState)
    (i : Nat) (o : ItemOutcome) : (processItem query now st i o).options = st.options := by
  cases o with
  | err => rfl
  | page p => simp only [processItem]; split <;> rfl

theorem processItem_mode (query : String) (now : Nat) (st : ScraperState)
    (i : Nat) (o : ItemOutcome) :
    (processItem query now st i o).stats.mode = st.stats.mode := by
  cases o with
  | err => rfl
  | page p => simp only [processItem]; split <;> rfl

theorem processItem_results (query : String) (now : Nat) (st : ScraperState)
    (i : Nat) (o : ItemOutcome) :
    (processItem query now st i o).results
      = st.results ++ (itemValue query now o (i + 1)).toList := by
  cases o with
  | err => simp [processItem, itemValue]
  | page p =>
    simp only [processItem, itemValue]
    split
    · simp
    · simp

theorem processItem_processed (query : String) (now : Nat) (st : ScraperState)
    (i : Nat) (o : ItemOutcome) :
    (processItem query now st i o).stats.processed
      = st.stats.processed + (if o.isPage then 1 else 0) := by
  cases o with
  | err => simp [processItem, ItemOutcome.isPage]
  | page p =>
    simp only [processItem, ItemOutcome.isPage, if_true]
    split <;> simp

theorem seqFold_options (query : String) (now : Nat) (item : Nat → ItemOutcome)
    (idxs : List Nat) (st : ScraperState) :
    (seqFold query now item st idxs).options = st.options := by
  induction idxs generalizing st with
  | nil => rfl
  | cons i is ih =>
    simp only [seqFold, List.foldl_cons] at *
    rw [ih, processItem_options]

theorem seqFold_mode (query : String) (now : Nat) (item : Nat → ItemOutcome)
    (idxs : List Nat) (st : ScraperState) :
    (seqFold query now item st idxs).stats.mode = st.stats.mode := by
  induction idxs generalizing st with
  | nil => rfl
  | cons i is ih =>
    simp only [seqFold, List.foldl_cons] at *
    rw [ih, processItem_mode]

theorem seqFold_results (query : String) (now : Nat) (item : Nat → ItemOutcome)
    (idxs : List Nat) (st : ScraperState) :
    (seqFold query now item st idxs).results
      = st.results ++ idxs.filterMap (fun i => itemValue query now (item i) (i + 1)) := by
  induction idxs generalizing st with
  | nil => simp [seqFold]
  | cons i is ih =>
    simp only [seqFold, List.foldl_cons, List.filterMap_cons] at *
    rw [ih, processItem_results]
    cases itemValue query now (item i) (i + 1) <;> simp

theorem seqFold_processed (query : String) (now : Nat) (item : Nat → ItemOutcome)
    (idxs : List Nat) (st : ScraperState) :
    (seqFold query now item st idxs).stats.processed
      = st.stats.processed + idxs.countP (fun i => (item i).isPage) := by
  induction idxs generalizing st with
  | nil => simp [seqFold]
  | cons i is ih =>
    simp only [seqFold, List.foldl_cons, List.countP_cons] at *
    rw [ih, processItem_processed]
    cases h : (item i).isPage
    all_goals simp [h]
    all_goals omega

/-! ## Structure of completed sequential runs -/

theorem scrapeSequential_ok (st0 : ScraperState) (query : String) (maxResults : Nat)
    (env : SeqEnv) (l : List BusinessRecord) (st' : ScraperState)
    (h : scrapeSequential st0 query maxResults env = .ok (l, st')) :
    l = st'.results ∧ st'.options = st0.options ∧
      ∃ t, st'.results = st0.results ++ t := by
  unfold scrapeSequential at h
  by_cases hn : env.navOk
  · simp only [hn, if_true] at h
    by_cases hz : (!(handleInfiniteScroll
        { st0 with stats := { st0.stats with mode := "sequential" } }.options maxResults
          env.scrollObs env.finalCount
          { st0 with stats := { st0.stats with mode := "sequential" } }.stats).1.success
        && env.recheckCount == 0) = true
    · rw [if_pos hz] at h; cases h
    · rw [if_neg hz] at h
      injection h with h
      injection h with h1 h2
      subst h2; subst h1
      refine ⟨rfl, ?_, ?_⟩
      · rw [seqFold_options]
      · rw [seqFold_results]
        exact ⟨_, rfl⟩
  · simp only [hn, if_false, reduceCtorEq] at h

theorem scrapeSequential_mode (st0 : ScraperState) (query : String) (maxResults : Nat)
    (env : SeqEnv) :
    (outState (scrapeSequential st0 query maxResults env)).stats.mode = "sequential" := by
  unfold scrapeSequential
  by_cases hn : env.navOk
  · simp only [hn, if_true]
    split
    · rfl
    · simp only [outState]
      rw [seqFold_mode]
      simp [handleInfiniteScroll]
  · simp [hn, outState]

/-! ## Bound on scroll attempts -/

theorem scrollLoop_le (maxA maxB maxR : Nat) (obs : Nat → ScrollObs) :
    ∀ k sa cf rec, sa ≤ maxA + 1 → rec ≤ maxA →
      (scrollLoop maxA maxB maxR obs k sa cf rec).1 ≤ maxA + 1 ∧
      (scrollLoop maxA maxB maxR obs k sa cf rec).2 ≤ maxA := by
  intro k sa cf rec
  induction k, sa, cf, rec using scrollLoop.induct maxA maxB maxR obs with
  | case1 k sa cf rec h ho ih =>
    intro hsa hrec
    rw [scrollLoop]
    simp only [dif_pos h, ho]
    exact ih (by omega) hrec
  | case2 k sa cf rec h c ho hge =>
    intro hsa hrec
    rw [scrollLoop]
    simp only [dif_pos h, ho, if_pos hge]
    exact ⟨by omega, hrec⟩
  | case3 k sa cf rec h c ho hlt h2 =>
    intro hsa hrec
    rw [scrollLoop]
    simp only [dif_pos h, ho, if_neg hlt, dif_pos h2]
    exact ⟨by omega, hrec⟩
  | case4 k sa cf rec h c ho hlt h2 ih =>
    intro hsa hrec
    rw [scrollLoop]
    simp only [dif_pos h, ho, if_neg hlt, dif_neg h2]
    exact ih hsa hrec
  | case5 k sa cf rec h c ho hge =>
    intro hsa hrec
    rw [scrollLoop]
    simp only [dif_pos h, ho, if_pos hge]
    exact ⟨by omega, hrec⟩
  | case6 k sa cf rec h c ho hlt ih =>
    intro hsa hrec
    rw [scrollLoop]
    simp only [dif_pos h, ho, if_neg hlt]
    exact ih (by omega) hrec
  | case7 k sa cf rec h c nc ho hge =>
    intro hsa hrec
    rw [scrollLoop]
    simp only [dif_pos h, ho, if_pos hge]
    exact ⟨by omega, hrec⟩
  | case8 k sa cf rec h c nc ho hlt ih =>
    intro hsa hrec
    rw [scrollLoop]
    simp only [dif_pos h, ho, if_neg hlt]
    exact ih (by omega) (by omega)
  | case9 k sa cf rec h c nc ab ho hge =>
    intro hsa hrec
    rw [scrollLoop]
    simp only [dif_pos h, ho, if_pos hge]
    exact ⟨by omega, hrec⟩
  | case10 k sa cf rec h c nc ab ho hlt hbot =>
    intro hsa hrec
    rw [scrollLoop]
    simp only [dif_pos h, ho, if_neg hlt, if_pos hbot]
    omega
  | case11 k sa cf rec h c nc ab ho hlt hbot ih =>
    intro hsa hrec
    rw [scrollLoop]
    simp only [dif_pos h, ho, if_neg hlt, if_neg hbot]
    exact ih (by omega) (by omega)
  | case12 k sa cf rec h =>
    intro hsa hrec
    rw [scrollLoop]
    simp only [dif_neg h]
    exact ⟨hsa, hrec⟩

/-! ## The joint await assigns slots by index, not by completion order -/

theorem lookup_map_self {α : Type} (task : Nat → α) :
    ∀ (order : List Nat) (i : Nat), i ∈ order →
      (order.map (fun j => (j, task j))).lookup i = some (task i) := by
  intro order
  induction order with
  | nil => intro i hi; cases hi
  | cons j js ih =>
    intro i hi
    by_cases hij : i = j
    · subst hij
      simp [List.lookup]
    · have : i ∈ js := by
        cases hi with
        | head => exact absurd rfl hij
        | tail _ h => exact h
      have hbeq : (i == j) = false := by simpa using hij
      simp only [List.map_cons, List.lookup, hbeq]
      exact ih i this

theorem slotRead_joinAll {α : Type} (task : Nat → α) (b : Nat) (order : List Nat)
    (h : ∀ j, j < b → j ∈ order) :
    slotRead b (joinAll order b task) = (List.range b).map (fun i => some (task i)) := by
  unfold slotRead joinAll
  apply List.map_congr_left
  intro i hi
  have hib : i < b := List.mem_range.mp hi
  exact lookup_map_self task _ i (List.mem_filter.mpr ⟨h i hib, by simpa using hib⟩)

theorem batch_settled_values {β : Type} (task : Nat → Option β) (b : Nat)
    (order : List Nat) (h : ∀ j, j < b → j ∈ order) :
    (slotRead b (joinAll order b task)).filterMap (fun slot => slot.bind id)
      = (List.range b).filterMap task := by
  rw [slotRead_joinAll task b order h, List.filterMap_map]
  rfl

theorem filterMap_range_split {β : Type} (n c : Nat) (f : Nat → Option β) :
    (List.range n).filterMap f
      = (List.range (min c n)).filterMap f
        ++ (List.range (n - c)).filterMap (fun g => f (c + g)) := by
  rcases le_or_lt n c with hle | hlt
  · rw [Nat.min_eq_right hle, Nat.sub_eq_zero_of_le hle]
    simp
  · rw [Nat.min_eq_left (Nat.le_of_lt hlt)]
    have hcn : c + (n - c) = n := by omega
    have h2 := List.range_add c (n - c)
    rw [hcn] at h2
    rw [h2, List.filterMap_append, List.filterMap_map]
    rfl

/-- The whole batching loop, for any per-batch completion orders that cover
their batch, produces exactly the item values of the remaining URLs in
discovery order (appended to what was already collected). -/
theorem dispatchBatches_results (query : String) (now : Nat)
    (item : Nat → ItemOutcome) (schedule : Nat → List Nat) (batchSize : Nat)
    (hb : 1 ≤ batchSize) :
    ∀ (n : Nat) (urls : List String), urls.length = n →
      ∀ (i bno : Nat) (results : List BusinessRecord) (stats : Stats),
      (∀ k j, j < min batchSize (urls.length - k * batchSize) → j ∈ schedule (bno + k)) →
      (dispatchBatches query now item schedule batchSize urls i bno results stats).1
        = results ++ (List.range urls.length).filterMap
            (fun g => itemValue query now (item (i + g)) (i + g + 1)) := by
  intro n
  induction n using Nat.strong_induction_on with
  | _ n ih =>
    intro urls hlen i bno results stats hsched
    cases urls with
    | nil => simp [dispatchBatches]
    | cons u rest =>
      rw [dispatchBatches]
      simp only [dif_neg (by omega : ¬ batchSize = 0)]
      have hblen : ((u :: rest).take batchSize).length = min batchSize (u :: rest).length := by
        simp [List.length_take]
      have hcover : ∀ j, j < ((u :: rest).take batchSize).length → j ∈ schedule bno := by
        intro j hj
        rw [hblen] at hj
        have := hsched 0 j
        simp only [Nat.zero_mul, Nat.sub_zero, Nat.add_zero] at this
        exact this hj
      rw [batch_settled_values _ _ _ hcover]
      have hlen' : ((u :: rest).drop batchSize).length = (u :: rest).length - batchSize := by
        simp [List.length_drop]
      have hpos : 0 < (u :: rest).length := by simp
      have hsched2 : ∀ k j,
          j < min batchSize (((u :: rest).drop batchSize).length - k * batchSize) →
          j ∈ schedule (bno + 1 + k) := by
        intro k j hj
        rw [hlen'] at hj
        have heq : (u :: rest).length - batchSize - k * batchSize
            = (u :: rest).length - (k + 1) * batchSize := by
          rw [Nat.sub_sub, Nat.succ_mul]
          omega
        have hmem := hsched (k + 1) j
        rw [heq] at hj
        have hb2 : bno + (k + 1) = bno + 1 + k := by omega
        rw [hb2] at hmem
        exact hmem hj
      have hrec := fun (results2 : List BusinessRecord) (stats2 : Stats) =>
        ih ((u :: rest).length - batchSize) (by omega) ((u :: rest).drop batchSize)
          hlen' (i + batchSize) (bno + 1) results2 stats2 hsched2
      rw [hrec, hblen, hlen']
      rw [List.append_assoc]
      congr 1
      rw [filterMap_range_split (u :: rest).length batchSize
        (fun g => itemValue query now (item (i + g)) (i + g + 1))]
      rw [Nat.min_comm]
      congr 1
      apply List.filterMap_congr
      intro g _
      have h1 : i + batchSize + g = i + (batchSize + g) := by omega
      rw [h1]

/-- The item value, when present, is a record whose resultIndex is the
1-based discovery position it was dispatched with. -/
theorem itemValue_resultIndex (query : String) (now : Nat) (o : ItemOutcome)
    (idx : Nat) (r : BusinessRecord) (h : itemValue query now o idx = some r) :
    r.resultIndex = idx := by
  cases o with
  | err => simp [itemValue] at h
  | page p =>
    simp only [itemValue] at h
    split at h
    · cases h; rfl
    · cases h

theorem pairwise_filterMap_of_pairwise {β : Type} (R : β → β → Prop)
    (f : Nat → Option β) :
    ∀ l : List Nat,
      l.Pairwise (fun a b => ∀ x y, f a = some x → f b = some y → R x y) →
      (l.filterMap f).Pairwise R := by
  intro l
  induction l with
  | nil => intro _; simp
  | cons a t iht =>
    intro hp
    rw [List.pairwise_cons] at hp
    obtain ⟨hhead, htail⟩ := hp
    rw [List.filterMap_cons]
    cases hfa : f a with
    | none => exact iht htail
    | some x =>
      refine List.Pairwise.cons ?_ (iht htail)
      intro y hy
      obtain ⟨b, hbl, hfb⟩ := List.mem_filterMap.mp hy
      exact hhead b hbl x y hfa hfb

theorem pairwise_of_filterMap_range {β : Type} (R : β → β → Prop)
    (f : Nat → Option β)
    (hf : ∀ a b x y, a < b → f a = some x → f b = some y → R x y) (n : Nat) :
    ((List.range n).filterMap f).Pairwise R := by
  apply pairwise_filterMap_of_pairwise
  apply List.Pairwise.imp_of_mem ?_ (List.pairwise_lt_range n)
  intro a b _ _ hab x y hx hy
  exact hf a b x y hab hx hy

/-! ## Claim C9 -/

/-- C9 counterexample: the returned scroll-attempt count CAN exceed the
hard cap.  With the default cap of 10 and a target of 5, nine successful
no-growth cycles bring scrollAttempts to 9; the tenth iteration then
completes its scroll, increments scrollAttempts to 10 and records it, and
its at-bottom page.evaluate throws - so the catch increments
scrollAttempts a second time in the same iteration.  handleInfiniteScroll
returns scrollAttempts = 11 > 10, falsifying the claimed bound for the
returned counter (the recorded stats.scrollAttempts stays at 10). -/
theorem returned_attempts_exceed_cap :
    (handleInfiniteScroll defaultOptions 5
        (fun k => if k < 9 then ScrollObs.cycle 1 1 false
          else ScrollObs.raiseAtBottomCheck 1 1) 3 initStats).1.scrollAttempts = 11
    ∧ defaultOptions.maxScrollAttempts
        < (handleInfiniteScroll defaultOptions 5
            (fun k => if k < 9 then ScrollObs.cycle 1 1 false
              else ScrollObs.raiseAtBottomCheck 1 1) 3 initStats).1.scrollAttempts
    ∧ (handleInfiniteScroll defaultOptions 5
        (fun k => if k < 9 then ScrollObs.cycle 1 1 false
          else ScrollObs.raiseAtBottomCheck 1 1) 3 initStats).2.scrollAttempts = 10 := by
  refine ⟨?_, ?_, ?_⟩ <;>
    simp [handleInfiniteScroll, scrollLoop, defaultOptions, initStats,
      maxConsecutiveFailuresFor]

/-- C9 amended: for every sequence of observed page states the scroll loop
of handleInfiniteScroll terminates (scrollLoop is a total function of the
observation stream, justified by the decreasing measure on attempts and
consecutive failures); the recorded this.stats.scrollAttempts never
exceeds the configured hard cap maxScrollAttempts; and the scrollAttempts
count returned in the scroll result exceeds the cap by at most one - it
can reach maxScrollAttempts + 1 exactly when the final iteration's
at-bottom check throws after the attempt increment, making the catch
increment the counter a second time. -/
theorem scroll_attempts_bounded (opts : ScraperOptions) (maxResults : Nat)
    (obs : Nat → ScrollObs) (finalCount : Nat) (stats : Stats)
    (h : stats.scrollAttempts ≤ opts.maxScrollAttempts) :
    (handleInfiniteScroll opts maxResults obs finalCount stats).1.scrollAttempts
        ≤ opts.maxScrollAttempts + 1 ∧
    (handleInfiniteScroll opts maxResults obs finalCount stats).2.scrollAttempts
        ≤ opts.maxScrollAttempts := by
  unfold handleInfiniteScroll
  exact scrollLoop_le opts.maxScrollAttempts (maxConsecutiveFailuresFor opts.proMode)
    maxResults obs 0 0 0 stats.scrollAttempts (by omega) h

/-- Witness for the amended C9 at a concrete input: the default
configuration, a stream that always throws before any state change, and
fresh stats. -/
theorem scroll_attempts_bounded_witness :
    initStats.scrollAttempts ≤ defaultOptions.maxScrollAttempts ∧
    (handleInfiniteScroll defaultOptions 5 (fun _ => ScrollObs.raise) 0
        initStats).1.scrollAttempts ≤ defaultOptions.maxScrollAttempts + 1 ∧
    (handleInfiniteScroll defaultOptions 5 (fun _ => ScrollObs.raise) 0
        initStats).2.scrollAttempts ≤ defaultOptions.maxScrollAttempts := by
  refine ⟨by decide, ?_, ?_⟩
  · exact (scroll_attempts_bounded defaultOptions 5 (fun _ => ScrollObs.raise) 0
      initStats (by decide)).1
  · exact (scroll_attempts_bounded defaultOptions 5 (fun _ => ScrollObs.raise) 0
      initStats (by decide)).2

/-! ## Claim C7 -/

/-- C7 counterexample: a run in which EVERY cycle is stagnant in the sense
of the claim (the scroll succeeds but the item count never grows: each
cycle observes 3 items before and 3 items after, away from the bottom,
with a target of 5).  The claim says the loop aborts once 2 consecutive
stagnant cycles accumulate; instead the loop runs all 10 configured
attempts, because the 2-of-a-kind threshold counts only failed scroll
operations and a successful zero-growth cycle resets that counter. -/
theorem stagnation_does_not_abort_loop :
    (handleInfiniteScroll defaultOptions 5 (fun _ => ScrollObs.cycle 3 3 false) 3
        initStats).1.scrollAttempts = 10 ∧
    2 < (handleInfiniteScroll defaultOptions 5 (fun _ => ScrollObs.cycle 3 3 false) 3
        initStats).1.scrollAttempts := by
  constructor <;>
    simp [handleInfiniteScroll, scrollLoop, defaultOptions, initStats,
      maxConsecutiveFailuresFor]

/-- C7 amended: the threshold of handleInfiniteScroll (2 for standard runs,
3 for proMode runs) aborts the loop when CONSECUTIVE FAILED SCROLL
OPERATIONS reach it (cycles in which performDoubleScroll reports failure,
e.g. no feed container), not stagnant cycles: below the threshold a failed
scroll continues without counting an attempt, and a successful cycle with
no item-count growth resets the failure counter to zero - it can only end
the loop through the at-bottom check or the attempt cap. -/
theorem scroll_failure_threshold_abort (proMode : Bool) (maxA maxR : Nat)
    (obs : Nat → ScrollObs) (k sa cf rec : Nat) (hsa : sa < maxA) :
    maxConsecutiveFailuresFor proMode = (if proMode then 3 else 2) ∧
    (∀ c, obs k = ScrollObs.scrollFail c → c < maxR →
      ((maxConsecutiveFailuresFor proMode ≤ cf + 1 →
        scrollLoop maxA (maxConsecutiveFailuresFor proMode) maxR obs k sa cf rec
          = (sa, rec)) ∧
       (cf + 1 < maxConsecutiveFailuresFor proMode →
        scrollLoop maxA (maxConsecutiveFailuresFor proMode) maxR obs k sa cf rec
          = scrollLoop maxA (maxConsecutiveFailuresFor proMode) maxR obs
              (k + 1) sa (cf + 1) rec))) ∧
    (∀ c nc ab, obs k = ScrollObs.cycle c nc ab → c < maxR →
      ((ab = true ∧ nc = c →
        scrollLoop maxA (maxConsecutiveFailuresFor proMode) maxR obs k sa cf rec
          = (sa + 1, sa + 1)) ∧
       (¬(ab = true ∧ nc = c) →
        scrollLoop maxA (maxConsecutiveFailuresFor proMode) maxR obs k sa cf rec
          = scrollLoop maxA (maxConsecutiveFailuresFor proMode) maxR obs
              (k + 1) (sa + 1) 0 (sa + 1)))) := by
  refine ⟨rfl, ?_, ?_⟩
  · intro c hoc hclt
    constructor
    · intro hth
      rw [scrollLoop]
      simp only [dif_pos hsa, hoc]
      rw [if_neg (by omega), dif_pos hth]
    · intro hth
      conv_lhs => rw [scrollLoop]
      simp only [dif_pos hsa, hoc]
      rw [if_neg (by omega), dif_neg (by omega)]
  · intro c nc ab hoc hclt
    constructor
    · rintro ⟨hab, hnc⟩
      rw [scrollLoop]
      simp only [dif_pos hsa, hoc]
      rw [if_neg (by omega)]
      rw [if_pos (by simp [hab, hnc])]
    · intro hnot
      conv_lhs => rw [scrollLoop]
      simp only [dif_pos hsa, hoc]
      rw [if_neg (by omega)]
      rw [if_neg (by simp only [Bool.and_eq_true, beq_iff_eq]; exact fun hh => hnot ⟨hh.1, hh.2⟩)]

/-- Witness for the amended C7: a standard run (threshold 2) at failure
counter 1 whose next observation is a failed scroll aborts immediately. -/
theorem scroll_failure_threshold_abort_witness :
    (0 : Nat) < 10 ∧
    scrollLoop 10 (maxConsecutiveFailuresFor false) 5
        (fun _ => ScrollObs.scrollFail 3) 0 0 1 0 = (0, 0) := by
  refine ⟨by decide, ?_⟩
  exact ((scroll_failure_threshold_abort false 10 5 (fun _ => ScrollObs.scrollFail 3)
    0 0 1 0 (by decide)).2.1 3 rfl (by decide)).1 (by decide)

/-! ## Claim C1 -/

/-- C1 evaluation at the failing input: a sequential run over one
discovered URL whose detail navigation throws.  The run completes normally
(returning the empty record list), but the catch path reaches the next
iteration through a continue that skips the processed increment, so the
final stats are processed = 0, successful = 0, failed = 1 and the claimed
invariant processed = successful + failed is violated.  (The concurrent
discipline violates it too, from the other side: a sentinel-name record
increments processed but neither successful nor failed, see the C2
evaluation.) -/
theorem stats_invariant_violated_on_hard_error :
    let penv : ParEnv :=
      ⟨false, ⟨false, fun _ => ScrollObs.raise, 0, []⟩, fun _ => ItemOutcome.err,
        fun _ => [], 0⟩
    let senv : SeqEnv :=
      ⟨true, fun _ => ScrollObs.cycle 1 1 false, 1, 1, ["u"],
        fun _ => ItemOutcome.err, 0⟩
    let out := scrapeBusinesses (mkScraper defaultOptions) "q" 1 penv senv
    okResults out = some [] ∧
    (outState out).stats.processed = 0 ∧
    (outState out).stats.successful = 0 ∧
    (outState out).stats.failed = 1 ∧
    (outState out).stats.processed ≠ (outState out).stats.successful + (outState out).stats.failed := by
  refine ⟨?_, ?_, ?_, ?_, ?_⟩ <;>
    simp [scrapeBusinesses, scrapeSequential, handleInfiniteScroll, scrollLoop,
      seqFold, processItem, discoverUrlsSequential, outState, okResults, mkScraper,
      initStats, defaultOptions, maxConsecutiveFailuresFor, List.range_succ]

/-! ## Claim C6 -/

/-- C6 counterexample: a sequential run with targetCount 5 where the feed
materialises exactly one item and that single item throws during its
detail navigation.  The run completes successfully (as the claim says),
but the final processed count is 0, not the claimed number of items found
(1), because the per-item catch continues past the processed increment. -/
theorem partial_run_processed_undercount :
    let senv : SeqEnv :=
      ⟨true, fun _ => ScrollObs.cycle 1 1 true, 1, 1, ["u"],
        fun _ => ItemOutcome.err, 0⟩
    let out := scrapeSequential (mkScraper defaultOptions) "q" 5 senv
    (okResults out).isSome = true ∧
    senv.links.length = 1 ∧
    (outState out).stats.processed = 0 ∧
    (outState out).stats.processed ≠ senv.links.length := by
  refine ⟨?_, ?_, ?_, ?_⟩ <;>
    simp [scrapeSequential, handleInfiniteScroll, scrollLoop, seqFold, processItem,
      discoverUrlsSequential, outState, okResults, mkScraper, initStats,
      defaultOptions, maxConsecutiveFailuresFor, List.range_succ]

/-- C6 amended: when the scroll loop ends with zero materialised items (and
the fallback re-measure also sees zero) the sequential run fails fatally
and returns no record list; when at least one item materialised and the
link snapshot holds no more than targetCount URLs, the run completes
successfully using the items actually found, and the final processed count
equals the number of found items whose detail processing did not throw
(sentinel-name soft failures included, thrown navigations excluded - the
catch path skips the processed increment). -/
theorem zero_items_fatal_partial_success :
    (∀ (opts : ScraperOptions) (query : String) (maxResults : Nat) (env : SeqEnv),
      env.navOk = true → env.finalCount = 0 → env.recheckCount = 0 →
      ∃ msg st', scrapeSequential (mkScraper opts) query maxResults env
        = .error (msg, st')) ∧
    (∀ (opts : ScraperOptions) (query : String) (maxResults : Nat) (env : SeqEnv),
      env.navOk = true → 0 < env.finalCount → env.links.length ≤ maxResults →
      ∃ recs st', scrapeSequential (mkScraper opts) query maxResults env
          = .ok (recs, st')
        ∧ st'.stats.processed
            = (List.range env.links.length).countP (fun i => (env.item i).isPage)) := by
  constructor
  · intro opts query maxResults env hnav hfc hrc
    cases hE : scrapeSequential (mkScraper opts) query maxResults env with
    | error e =>
      obtain ⟨msg, st'⟩ := e
      exact ⟨msg, st', rfl⟩
    | ok p =>
      exfalso
      unfold scrapeSequential at hE
      rw [if_pos hnav] at hE
      simp [handleInfiniteScroll, hfc, hrc] at hE
  · intro opts query maxResults env hnav hfc hle
    have hsucc : decide (0 < env.finalCount) = true := by simpa using hfc
    have hmin : min maxResults (discoverUrlsSequential env.links).length
        = (discoverUrlsSequential env.links).length := by
      have hlen : (discoverUrlsSequential env.links).length = env.links.length := by
        simp [discoverUrlsSequential]
      omega
    cases hE : scrapeSequential (mkScraper opts) query maxResults env with
    | error e =>
      exfalso
      unfold scrapeSequential at hE
      rw [if_pos hnav] at hE
      simp [handleInfiniteScroll, hsucc] at hE
    | ok p =>
      obtain ⟨recs, st'⟩ := p
      refine ⟨recs, st', rfl, ?_⟩
      unfold scrapeSequential at hE
      rw [if_pos hnav] at hE
      simp only [handleInfiniteScroll, hsucc, Bool.not_true, Bool.false_and,
        Bool.false_eq_true, if_false, Except.ok.injEq, Prod.mk.injEq] at hE
      rw [← hE.2]
      rw [hmin, seqFold_processed]
      have hlen : (discoverUrlsSequential env.links).length = env.links.length := by
        simp [discoverUrlsSequential]
      rw [hlen]
      simp [mkScraper, initStats]

/-- Witness for the amended C6: the fatal branch at a concretely empty
feed, and the partial-success branch at a feed of two items (one sentinel
page, one loaded page) against a target of 5. -/
theorem zero_items_fatal_partial_success_witness :
    (∃ msg st', scrapeSequential (mkScraper defaultOptions) "q" 5
        ⟨true, fun _ => ScrollObs.scrollFail 0, 0, 0, [], fun _ => ItemOutcome.err, 0⟩
        = .error (msg, st')) ∧
    (∃ recs st', scrapeSequential (mkScraper defaultOptions) "q" 5
        ⟨true, fun _ => ScrollObs.cycle 2 2 true, 2, 2, ["u", "v"],
          fun _ => ItemOutcome.page ⟨some "Joe", none, none, none, none, none, none,
            none, none, none, "u"⟩, 0⟩
        = .ok (recs, st')
      ∧ st'.stats.processed = (List.range ([("u" : String), "v"].length)).countP
          (fun i => ((fun _ => ItemOutcome.page ⟨some "Joe", none, none, none, none,
            none, none, none, none, none, "u"⟩) i : ItemOutcome).isPage)) := by
  constructor
  · exact (zero_items_fatal_partial_success).1 defaultOptions "q" 5
      ⟨true, fun _ => ScrollObs.scrollFail 0, 0, 0, [], fun _ => ItemOutcome.err, 0⟩
      rfl rfl rfl
  · exact (zero_items_fatal_partial_success).2 defaultOptions "q" 5
      ⟨true, fun _ => ScrollObs.cycle 2 2 true, 2, 2, ["u", "v"],
        fun _ => ItemOutcome.page ⟨some "Joe", none, none, none, none, none, none,
          none, none, none, "u"⟩, 0⟩
      rfl (by decide) (by decide)

/-! ## Claim C2 -/

/-- C2 evaluation at the failing input: a concurrent run over one
discovered URL whose detail page has no recognisable business name, so the
extractor returns a record whose name is the NOT_FOUND sentinel.  As the
claim says, the record is excluded from the returned list; but contrary to
the claim, the failed statistic stays 0 - the batch worker returns null
for a sentinel-name record without touching any counter (the sequential
discipline does count it, so the two disciplines disagree and the
concurrent one contradicts the stated invariant). -/
theorem parallel_not_found_excluded_not_counted :
    let page0 : DetailPage :=
      ⟨none, none, none, none, none, none, none, none, none, none, "u"⟩
    let penv : ParEnv :=
      ⟨true, ⟨true, fun _ => ScrollObs.cycle 1 1 false, 1, ["a/place/1"]⟩,
        fun _ => ItemOutcome.page page0, fun _ => [0], 0⟩
    let senv : SeqEnv :=
      ⟨false, fun _ => ScrollObs.raise, 0, 0, [], fun _ => ItemOutcome.err, 0⟩
    let out := scrapeBusinesses
      (mkScraper { defaultOptions with proMode := true, useParallel := true })
      "q" 1 penv senv
    (extractBusinessData page0 "q" 1 0).name = notFound ∧
    okResults out = some [] ∧
    (outState out).stats.failed = 0 ∧
    (outState out).stats.successful = 0 ∧
    (outState out).stats.processed = 1 := by
  refine ⟨by decide, ?_, ?_, ?_, ?_⟩ <;>
    simp [scrapeBusinesses, scrapeParallel, getBusinessUrlsSequential,
      handleInfiniteScroll, scrollLoop, discoverUrlsParallel, dispatchBatches,
      joinAll, slotRead, itemValue, parallelItemStats, extractBusinessData, getText,
      getHref, getPhoneFromAria, notFound, okResults, outState, mkScraper, initStats,
      defaultOptions, maxConsecutiveFailuresFor, strContains, splitFirstChars,
      startsWithChars, List.range_succ]

/-! ## Claim C3 -/

theorem getBusinessUrls_ok (st : ScraperState) (maxResults : Nat) (env : UrlsEnv)
    (urls : List String) (st1 : ScraperState)
    (h : getBusinessUrlsSequential st maxResults env = .ok (urls, st1)) :
    urls = discoverUrlsParallel env.links maxResults ∧ st1.options = st.options := by
  unfold getBusinessUrlsSequential at h
  by_cases hn : env.navOk
  · rw [if_pos hn] at h
    dsimp only at h
    split at h
    · cases h
    · injection h with h
      injection h with h1 h2
      exact ⟨h1.symm, by rw [← h2]⟩
  · rw [if_neg hn] at h
    cases h

/-- C3: in every concurrent run that completes normally, the returned list
is exactly the per-item values of the discovery snapshot in discovery
order - independent of the per-batch completion orders (quantified here as
any schedules covering their batches) - so the resultIndex sequence is
strictly increasing and every returned record carries the 1-based position
of its URL in the discovery snapshot: slots are assigned by discovery
ordinal, not completion order. -/
theorem parallel_resultIndex_discovery_order
    (st : ScraperState) (query : String) (maxResults : Nat) (env : ParEnv)
    (hmc : 1 ≤ st.options.maxConcurrency)
    (hsched : ∀ k j, j < min st.options.maxConcurrency
        ((discoverUrlsParallel env.urlsEnv.links maxResults).length
          - k * st.options.maxConcurrency) → j ∈ env.schedule k)
    (res : List BusinessRecord)
    (hok : okResults (scrapeParallel st query maxResults env) = some res) :
    res = (List.range (discoverUrlsParallel env.urlsEnv.links maxResults).length).filterMap
        (fun g => itemValue query env.now (env.item g) (g + 1))
    ∧ (res.map BusinessRecord.resultIndex).Pairwise (· < ·)
    ∧ ∀ r ∈ res, itemValue query env.now (env.item (r.resultIndex - 1)) r.resultIndex
        = some r := by
  have hres : res = (List.range
      (discoverUrlsParallel env.urlsEnv.links maxResults).length).filterMap
      (fun g => itemValue query env.now (env.item g) (g + 1)) := by
    unfold scrapeParallel at hok
    by_cases hcl : env.clusterLaunchOk
    · rw [if_pos hcl] at hok
      cases hu : getBusinessUrlsSequential
          { st with stats := { st.stats with mode := "parallel-pro" } }
          maxResults env.urlsEnv with
      | error e => rw [hu] at hok; simp [okResults] at hok
      | ok p =>
        obtain ⟨urls, st1⟩ := p
        rw [hu] at hok
        dsimp only at hok
        obtain ⟨hurls, hopt⟩ := getBusinessUrls_ok _ _ _ _ _ hu
        by_cases hz : urls.length = 0
        · rw [if_pos hz] at hok; simp [okResults] at hok
        · rw [if_neg hz] at hok
          simp only [okResults, Option.some.injEq] at hok
          have hbs : st1.options.maxConcurrency = st.options.maxConcurrency := by
            rw [hopt]
          rw [← hok]
          rw [hbs, hurls]
          rw [dispatchBatches_results query env.now env.item env.schedule
            st.options.maxConcurrency hmc
            (discoverUrlsParallel env.urlsEnv.links maxResults).length
            (discoverUrlsParallel env.urlsEnv.links maxResults) rfl 0 0 [] st1.stats
            (by intro k j hj; rw [Nat.zero_add]; exact hsched k j hj)]
          simp only [List.nil_append]
          apply List.filterMap_congr
          intro g _
          rw [Nat.zero_add]
    · rw [if_neg hcl] at hok; cases hok
  refine ⟨hres, ?_, ?_⟩
  · rw [hres, List.map_filterMap]
    apply pairwise_of_filterMap_range
    intro a b x y hab hx hy
    simp only [Option.map_eq_some'] at hx hy
    obtain ⟨rx, hrx, hx2⟩ := hx
    obtain ⟨ry, hry, hy2⟩ := hy
    rw [← hx2, ← hy2, itemValue_resultIndex _ _ _ _ _ hrx,
      itemValue_resultIndex _ _ _ _ _ hry]
    omega
  · intro r hr
    rw [hres] at hr
    obtain ⟨g, _, hfg⟩ := List.mem_filterMap.mp hr
    have hidx : r.resultIndex = g + 1 := itemValue_resultIndex _ _ _ _ _ hfg
    rw [hidx]
    simpa using hfg

/-- Witness for C3: a two-URL batch whose workers finish in reversed order
(schedule [1, 0]); both detail pages lack a recognisable name, so the run
completes with the empty list, on which all three conclusions are checked
concretely. -/
theorem parallel_resultIndex_discovery_order_witness :
    let stW := mkScraper { defaultOptions with proMode := true, useParallel := true }
    let envW : ParEnv :=
      ⟨true, ⟨true, fun _ => ScrollObs.cycle 2 2 false, 2, ["a/place/1", "b/place/2"]⟩,
        fun _ => ItemOutcome.page
          ⟨none, none, none, none, none, none, none, none, none, none, "u"⟩,
        fun _ => [1, 0], 0⟩
    okResults (scrapeParallel stW "q" 2 envW) = some [] ∧
    (([] : List BusinessRecord)
      = (List.range (discoverUrlsParallel envW.urlsEnv.links 2).length).filterMap
          (fun g => itemValue "q" envW.now (envW.item g) (g + 1))
     ∧ (([] : List BusinessRecord).map BusinessRecord.resultIndex).Pairwise (· < ·)
     ∧ ∀ r ∈ ([] : List BusinessRecord),
         itemValue "q" envW.now (envW.item (r.resultIndex - 1)) r.resultIndex = some r) := by
  intro stW envW
  have hok : okResults (scrapeParallel stW "q" 2 envW) = some [] := by
    simp [scrapeParallel, getBusinessUrlsSequential, handleInfiniteScroll, scrollLoop,
      discoverUrlsParallel, dispatchBatches, joinAll, slotRead, itemValue,
      parallelItemStats, extractBusinessData, getText, getHref, getPhoneFromAria,
      notFound, okResults, mkScraper, initStats, defaultOptions,
      maxConsecutiveFailuresFor, strContains, splitFirstChars, startsWithChars,
      List.range_succ, List.lookup, stW, envW]
  refine ⟨hok, ?_⟩
  apply parallel_resultIndex_discovery_order stW "q" 2 envW (by decide) ?_ [] hok
  intro k j hj
  have hmcw : stW.options.maxConcurrency = 2 := rfl
  have hdl : (discoverUrlsParallel envW.urlsEnv.links 2).length = 2 := by decide
  rw [hmcw, hdl] at hj
  have hsch : ∀ m, envW.schedule m = [1, 0] := fun _ => rfl
  rcases k with _ | _ | k
  · have hj2 : j < 2 := by omega
    rw [hsch 0]
    interval_cases j
    · simp
    · simp
  · exact absurd hj (by omega)
  · exact absurd hj (by omega)

/-! ## Claim C5 -/

/-- C5: when the instance is configured for the concurrent discipline and
its worker pool fails to initialise (Cluster.launch throws), the run is
not aborted: scrapeBusinesses clears both pro-mode flags on the instance
and re-runs the whole job with the sequential discipline on the same
accumulated results, and whatever the outcome, the mode carried by the
final statistics is the sequential one actually used, so the caller can
detect the downgrade. -/
theorem parallel_failure_falls_back_sequential
    (st : ScraperState) (query : String) (maxResults : Nat)
    (penv : ParEnv) (senv : SeqEnv)
    (hpro : st.options.proMode = true) (hpar : st.options.useParallel = true)
    (hcl : penv.clusterLaunchOk = false) :
    (∃ st2, scrapeBusinesses st query maxResults penv senv
        = scrapeSequential st2 query maxResults senv
      ∧ st2.options.proMode = false ∧ st2.options.useParallel = false
      ∧ st2.results = st.results)
    ∧ (outState (scrapeBusinesses st query maxResults penv senv)).stats.mode
        = "sequential" := by
  have hred : scrapeBusinesses st query maxResults penv senv
      = scrapeSequential
          { st with
            options := { st.options with proMode := false, useParallel := false },
            stats := { st.stats with total := maxResults, mode := "parallel-pro" } }
          query maxResults senv := by
    unfold scrapeBusinesses scrapeParallel
    simp [hpro, hpar, hcl]
  constructor
  · exact ⟨_, hred, rfl, rfl, rfl⟩
  · rw [hred]
    exact scrapeSequential_mode _ _ _ _

/-- Witness for C5 at a concrete input: a pro-configured scraper, a pool
that fails to launch, and a sequential environment with one extractable
item. -/
theorem parallel_failure_falls_back_sequential_witness :
    let stW := mkScraper { defaultOptions with proMode := true, useParallel := true }
    let penvW : ParEnv :=
      ⟨false, ⟨true, fun _ => ScrollObs.cycle 1 1 false, 1, []⟩,
        fun _ => ItemOutcome.err, fun _ => [], 0⟩
    let senvW : SeqEnv :=
      ⟨true, fun _ => ScrollObs.cycle 1 1 false, 1, 1, ["u"],
        fun _ => ItemOutcome.page ⟨some "Joe", none, none, none, none, none, none,
          none, none, none, "u"⟩, 0⟩
    (∃ st2, scrapeBusinesses stW "q" 1 penvW senvW
        = scrapeSequential st2 "q" 1 senvW
      ∧ st2.options.proMode = false ∧ st2.options.useParallel = false
      ∧ st2.results = stW.results)
    ∧ (outState (scrapeBusinesses stW "q" 1 penvW senvW)).stats.mode
        = "sequential" := by
  intro stW penvW senvW
  exact parallel_failure_falls_back_sequential stW "q" 1 penvW senvW rfl rfl rfl

/-! ## Claim C4 -/

/-- C4 counterexample: the validation block accepts maxResults = 0 (the
claim requires rejection of any value outside 1..500) and accepts a
request with no maxResults at all, silently defaulting it to 15 (the claim
says a missing maxResults is rejected). -/
theorem validate_accepts_out_of_range_maxResults :
    validateScrapeRequest ⟨some "restaurants in Miami", some 0, false⟩
        = .accepted "restaurants in Miami" 0
    ∧ validateScrapeRequest ⟨some "restaurants in Miami", none, false⟩
        = .accepted "restaurants in Miami" 15 := by
  constructor <;> decide

/-- C4 amended: the handler rejects, before constructing any scraper (the
Bool resource flag stays false and the response is the 400 payload),
exactly the requests whose query is missing/not a string or blank after
trimming, or whose maxResults - defaulted to 15 when missing - exceeds
500.  There is no lower bound: 0, negative values and a missing
maxResults all pass validation. -/
theorem validate_rejection_characterization :
    (∀ req : ScrapeRequest,
      (∃ e, validateScrapeRequest req = .rejected e) ↔
      (req.query = none
        ∨ (∃ q, req.query = some q ∧ (strTrim q).length = 0)
        ∨ 500 < req.maxResults.getD 15))
    ∧ (∀ (req : ScrapeRequest) (penv : ParEnv) (senv : SeqEnv) (e : String),
      validateScrapeRequest req = .rejected e →
      scrapeEndpoint req penv senv = (.badRequest e, false)) := by
  constructor
  · intro req
    unfold validateScrapeRequest
    cases hq : req.query with
    | none => simp
    | some q =>
      dsimp only
      by_cases ht : (strTrim q).length = 0
      · rw [if_pos ht]
        simp [hq, ht]
      · rw [if_neg ht]
        by_cases hm : 500 < req.maxResults.getD 15
        · rw [if_pos hm]
          simp [hq, ht, hm]
        · rw [if_neg hm]
          simp [hq, ht, hm]
  · intro req penv senv e h
    unfold scrapeEndpoint
    rw [h]

/-- Witness for the amended C4: a blank query is rejected and answered
with the 400 payload and no resource allocation; the characterisation is
also checked on an accepted request. -/
theorem validate_rejection_characterization_witness :
    ((∃ e, validateScrapeRequest ⟨some "  ", some 3, false⟩ = .rejected e) ↔
      ((⟨some "  ", some 3, false⟩ : ScrapeRequest).query = none
        ∨ (∃ q, (⟨some "  ", some 3, false⟩ : ScrapeRequest).query = some q
            ∧ (strTrim q).length = 0)
        ∨ 500 < ((⟨some "  ", some 3, false⟩ : ScrapeRequest).maxResults.getD 15)))
    ∧ scrapeEndpoint ⟨some "  ", some 3, false⟩
        ⟨false, ⟨false, fun _ => ScrollObs.raise, 0, []⟩, fun _ => ItemOutcome.err,
          fun _ => [], 0⟩
        ⟨false, fun _ => ScrollObs.raise, 0, 0, [], fun _ => ItemOutcome.err, 0⟩
        = (.badRequest "Query is required and must be a non-empty string", false) := by
  constructor
  · exact (validate_rejection_characterization).1 ⟨some "  ", some 3, false⟩
  · exact (validate_rejection_characterization).2 ⟨some "  ", some 3, false⟩
      ⟨false, ⟨false, fun _ => ScrollObs.raise, 0, []⟩, fun _ => ItemOutcome.err,
        fun _ => [], 0⟩
      ⟨false, fun _ => ScrollObs.raise, 0, 0, [], fun _ => ItemOutcome.err, 0⟩
      "Query is required and must be a non-empty string" (by decide)

/-! ## Claim C8 -/

/-- C8 counterexample: neither discovery pass deduplicates.  When the DOM
link snapshot holds the same detail URL twice, both the sequential
businessUrls array and the parallel URL snapshot keep the duplicate, so
the discovered URL sequence is not unique within the run as claimed. -/
theorem discovery_keeps_duplicate_urls :
    ¬ (discoverUrlsParallel ["https://m/place/a", "https://m/place/a"] 10).Nodup
    ∧ ¬ (((discoverUrlsSequential ["https://m/place/a", "https://m/place/a"]).map
          Prod.fst).Nodup) := by
  constructor <;> decide

/-- C8 amended: discovery preserves DOM order - the sequential pass keeps
every link href in order, and the parallel pass keeps an order-preserving
subsequence (the place-links, truncated to the target) - and the URL
sequence is duplicate-free whenever the underlying DOM link sequence is;
the code itself performs no deduplication. -/
theorem enumFrom_map_snd {α : Type} :
    ∀ (l : List α) (n : Nat), (List.enumFrom n l).map Prod.snd = l := by
  intro l
  induction l with
  | nil => intro n; rfl
  | cons a t ih => intro n; simp [List.enumFrom, ih]

theorem discovery_order_and_conditional_uniqueness :
    (∀ links : List String, (discoverUrlsSequential links).map Prod.fst = links)
    ∧ (∀ (links : List String) (maxResults : Nat),
        List.Sublist (discoverUrlsParallel links maxResults) links)
    ∧ (∀ (links : List String) (maxResults : Nat), links.Nodup →
        (discoverUrlsParallel links maxResults).Nodup) := by
  refine ⟨?_, ?_, ?_⟩
  · intro links
    unfold discoverUrlsSequential
    rw [List.map_map]
    have hcomp : (Prod.fst ∘ fun e : Nat × String => (e.2, e.1 + 1)) = Prod.snd := rfl
    rw [hcomp]
    exact enumFrom_map_snd links 0
  · intro links maxResults
    exact List.Sublist.trans (List.take_sublist _ _) (List.filter_sublist _)
  · intro links maxResults h
    exact List.Nodup.sublist
      (List.Sublist.trans (List.take_sublist _ _) (List.filter_sublist _)) h

/-- Witness for the amended C8 at a concrete duplicate-free DOM snapshot. -/
theorem discovery_order_and_conditional_uniqueness_witness :
    ((discoverUrlsSequential ["a/place/x", "b/place/y"]).map Prod.fst
      = ["a/place/x", "b/place/y"])
    ∧ List.Sublist (discoverUrlsParallel ["a/place/x", "b/place/y"] 5)
        ["a/place/x", "b/place/y"]
    ∧ (["a/place/x", "b/place/y"] : List String).Nodup
    ∧ (discoverUrlsParallel ["a/place/x", "b/place/y"] 5).Nodup := by
  refine ⟨?_, ?_, by decide, ?_⟩
  · exact (discovery_order_and_conditional_uniqueness).1 ["a/place/x", "b/place/y"]
  · exact (discovery_order_and_conditional_uniqueness).2.1 ["a/place/x", "b/place/y"] 5
  · exact (discovery_order_and_conditional_uniqueness).2.2 ["a/place/x", "b/place/y"] 5
      (by decide)

/-! ## Claim C10 -/

/-- C10: this.results is never cleared.  When the same instance runs
scrapeBusinesses twice in sequential mode (proMode off) and both runs
complete normally, the list returned by the second run extends the list
returned by the first: every record of the first returned list is present
(as a preserved leading segment) in the second. -/
theorem results_accumulate_across_runs
    (st : ScraperState) (q1 : String) (n1 : Nat) (p1 : ParEnv) (s1 : SeqEnv)
    (q2 : String) (n2 : Nat) (p2 : ParEnv) (s2 : SeqEnv)
    (r1 r2 : List BusinessRecord)
    (hpro : st.options.proMode = false)
    (h1 : okResults (scrapeBusinesses st q1 n1 p1 s1) = some r1)
    (h2 : okResults (scrapeBusinesses
        (outState (scrapeBusinesses st q1 n1 p1 s1)) q2 n2 p2 s2) = some r2) :
    ∃ t, r2 = r1 ++ t := by
  have hred1 : scrapeBusinesses st q1 n1 p1 s1
      = scrapeSequential { st with stats := { st.stats with total := n1 } } q1 n1 s1 := by
    unfold scrapeBusinesses
    simp [hpro]
  rw [hred1] at h1 h2
  cases hA : scrapeSequential { st with stats := { st.stats with total := n1 } } q1 n1 s1 with
  | error e => rw [hA] at h1; simp [okResults] at h1
  | ok p =>
    obtain ⟨l1, stA⟩ := p
    rw [hA] at h1 h2
    simp only [okResults, Option.some.injEq] at h1
    obtain ⟨hl1, hoptA, tA, htA⟩ := scrapeSequential_ok _ _ _ _ _ _ hA
    have hproA : stA.options.proMode = false := by rw [hoptA]; exact hpro
    have hout : outState (Except.ok (l1, stA) : RunResult) = stA := rfl
    rw [hout] at h2
    have hred2 : scrapeBusinesses stA q2 n2 p2 s2
        = scrapeSequential { stA with stats := { stA.stats with total := n2 } } q2 n2 s2 := by
      unfold scrapeBusinesses
      simp [hproA]
    rw [hred2] at h2
    cases hB : scrapeSequential { stA with stats := { stA.stats with total := n2 } } q2 n2 s2 with
    | error e => rw [hB] at h2; simp [okResults] at h2
    | ok pB =>
      obtain ⟨l2, stB⟩ := pB
      rw [hB] at h2
      simp only [okResults, Option.some.injEq] at h2
      obtain ⟨hl2, _hoptB, tB, htB⟩ := scrapeSequential_ok _ _ _ _ _ _ hB
      refine ⟨tB, ?_⟩
      rw [← h2, ← h1, hl2, htB, hl1]

/-- Witness for C10: a fresh default scraper run twice on environments
whose feeds satisfy the target immediately and discover no links, so both
invocations return the (shared, accumulated) empty list. -/
theorem results_accumulate_across_runs_witness :
    let penvW : ParEnv :=
      ⟨false, ⟨false, fun _ => ScrollObs.raise, 0, []⟩, fun _ => ItemOutcome.err,
        fun _ => [], 0⟩
    let senvW : SeqEnv :=
      ⟨true, fun _ => ScrollObs.cycle 1 1 false, 1, 1, [], fun _ => ItemOutcome.err, 0⟩
    (mkScraper defaultOptions).options.proMode = false ∧
    okResults (scrapeBusinesses (mkScraper defaultOptions) "a" 1 penvW senvW)
      = some [] ∧
    okResults (scrapeBusinesses
        (outState (scrapeBusinesses (mkScraper defaultOptions) "a" 1 penvW senvW))
        "b" 1 penvW senvW) = some [] ∧
    ∃ t, ([] : List BusinessRecord) = [] ++ t := by
  intro penvW senvW
  have h1 : okResults (scrapeBusinesses (mkScraper defaultOptions) "a" 1 penvW senvW)
      = some [] := by
    simp [scrapeBusinesses, scrapeSequential, handleInfiniteScroll, scrollLoop,
      seqFold, discoverUrlsSequential, okResults, mkScraper, initStats,
      defaultOptions, maxConsecutiveFailuresFor, penvW, senvW]
  have h2 : okResults (scrapeBusinesses
      (outState (scrapeBusinesses (mkScraper defaultOptions) "a" 1 penvW senvW))
      "b" 1 penvW senvW) = some [] := by
    simp [scrapeBusinesses, scrapeSequential, handleInfiniteScroll, scrollLoop,
      seqFold, discoverUrlsSequential, okResults, outState, mkScraper, initStats,
      defaultOptions, maxConsecutiveFailuresFor, penvW, senvW]
  exact ⟨rfl, h1, h2,
    results_accumulate_across_runs (mkScraper defaultOptions) "a" 1 penvW senvW
      "b" 1 penvW senvW [] [] rfl h1 h2⟩

end LeadGen
